import Mathlib

/-!
Verification of the Yamuna water-quality dashboard generator
(`yamuna_dashboard.py`).  The Python half of the program cleans a
spreadsheet and embeds it as JSON into a generated HTML page; the
JavaScript half (a template string inside the same file) filters the
embedded rows and renders charts, insights and a WQI comparison tool.

This file shallowly embeds both halves.  JavaScript numbers are
modelled as exact rationals (the tolerance claims absorb float
rounding); JSON cell values are modelled by `JSCell` (the serializer
`prepare_json_data` emits only numbers and nulls for parameter cells,
so the defensive string branches of the browser helpers are
unreachable and are not modelled); the special-value arithmetic of the
Streeter-Phelps computation is modelled by `JSNum`, which carries NaN
and the signed infinities explicitly.
-/

set_option maxHeartbeats 1000000

/-- A JSON cell value as seen by the browser runtime: `null`, a missing
property (`undefined`), or a finite number. -/
inductive JSCell where
  | nullv : JSCell
  | undefv : JSCell
  | num : ℚ → JSCell
deriving DecidableEq, Repr

/-- Embeds `getAnalysisValue(val, param)`: `Number(null)` is `0`, so a
null cell of a non-WQI parameter yields `0`; a WQI value of `0` (the
sentinel) yields `null`; `Number(undefined)` is NaN and yields `null`. -/
def getAnalysisValue (c : JSCell) (param : String) : Option ℚ :=
  match c with
  | .undefv => none
  | .nullv => if param = "WQI" then none else some 0
  | .num q => if param = "WQI" ∧ q = 0 then none else some q

/-- Embeds `getWQIValue(val)`: null, undefined and `0` all yield `null`. -/
def getWQIValue (c : JSCell) : Option ℚ :=
  match c with
  | .undefv => none
  | .nullv => none
  | .num q => if q = 0 then none else some q

/-- Embeds `getDisplayValue(val)`: `Number(null) = 0` is finite, so a
null cell yields `0`; `undefined` yields `null`. -/
def getDisplayValue (c : JSCell) : Option ℚ :=
  match c with
  | .undefv => none
  | .nullv => some 0
  | .num q => some q

/-- Result object of `calculateWQIBreakdown`: the three sub-indices, the
proportionality constant, the three weights, the three weighted
contributions, their percentage shares and the summed WQI. -/
structure WQIBreakdown where
  Qi_pH : ℚ
  Qi_BOD : ℚ
  Qi_DO : ℚ
  k : ℚ
  w_pH : ℚ
  w_BOD : ℚ
  w_DO : ℚ
  contrib_pH : ℚ
  contrib_BOD : ℚ
  contrib_DO : ℚ
  WQI : ℚ
deriving DecidableEq, Repr

/-- Embeds `calculateWQIBreakdown(pH, BOD, DO)` (returns `null` when any
input is `null`).  Standards `S_pH = 8.5`, `S_BOD = 3`, `S_DO = 5`;
ideals `I_pH = 7`, `I_BOD = 0`, `I_DO = 14.6`. -/
def calculateWQIBreakdown (pH BOD DO : Option ℚ) : Option WQIBreakdown :=
  match pH, BOD, DO with
  | some pH, some BOD, some DO =>
    let S_pH : ℚ := 8.5
    let S_BOD : ℚ := 3
    let S_DO : ℚ := 5
    let I_BOD : ℚ := 0
    let I_DO : ℚ := 14.6
    let Qi_pH : ℚ :=
      if pH ≥ 7 then ((pH - 7) / (S_pH - 7)) * 100 else ((7 - pH) / (7 - 6.5)) * 100
    let Qi_BOD : ℚ := ((BOD - I_BOD) / (S_BOD - I_BOD)) * 100
    let Qi_DO : ℚ := max 0 (((I_DO - DO) / (I_DO - S_DO)) * 100)
    let k : ℚ := 1 / (1 / S_pH + 1 / S_BOD + 1 / S_DO)
    let w_pH : ℚ := k / S_pH
    let w_BOD : ℚ := k / S_BOD
    let w_DO : ℚ := k / S_DO
    let contrib_pH : ℚ := Qi_pH * w_pH
    let contrib_BOD : ℚ := Qi_BOD * w_BOD
    let contrib_DO : ℚ := Qi_DO * w_DO
    some
      { Qi_pH := Qi_pH, Qi_BOD := Qi_BOD, Qi_DO := Qi_DO, k := k
        w_pH := w_pH, w_BOD := w_BOD, w_DO := w_DO
        contrib_pH := contrib_pH, contrib_BOD := contrib_BOD, contrib_DO := contrib_DO
        WQI := contrib_pH + contrib_BOD + contrib_DO }
  | _, _, _ => none

/-- The five WQI classification bands of the dashboard. -/
inductive WQIBand where
  | excellent : WQIBand
  | good : WQIBand
  | poor : WQIBand
  | veryPoor : WQIBand
  | unsuitable : WQIBand
deriving DecidableEq, Repr

/-- Embeds the `wqiClass` selection chain of `renderWQIBreakdownPanel`:
`< 50` Excellent (A), `< 100` Good (B), `< 200` Poor (C), `< 300`
Very Poor (D), otherwise Unsuitable (E). -/
def wqiClassOf (w : ℚ) : WQIBand :=
  if w < 50 then .excellent
  else if w < 100 then .good
  else if w < 200 then .poor
  else if w < 300 then .veryPoor
  else .unsuitable

/-- Abstract view of the two directories searched by
`DataProcessor.locate_input_file`: whether the default filename exists
in the script directory (`base`) and in the working directory (`cwd`),
and the glob results, in glob order, for each pattern in each
directory. -/
structure SearchDirs where
  baseHasDefault : Bool
  cwdHasDefault : Bool
  baseXlsx : List String
  cwdXlsx : List String
  baseXls : List String
  cwdXls : List String
deriving DecidableEq, Repr

/-- Outcome of `locate_input_file`: the default file in the script
directory, the default file in the working directory, some globbed
file, or termination via `sys.exit(1)`. -/
inductive LocateResult where
  | baseDefault : LocateResult
  | cwdDefault : LocateResult
  | found : String → LocateResult
  | exitOne : LocateResult
deriving DecidableEq, Repr

/-- Embeds `DataProcessor.locate_input_file`.  The glob loop iterates
patterns `["*.xlsx", "*.xls"]` and, for each pattern, tries the script
directory and then the working directory before moving to the next
pattern. -/
def locate_input_file (fs : SearchDirs) : LocateResult :=
  if fs.baseHasDefault then .baseDefault
  else if fs.cwdHasDefault then .cwdDefault
  else match fs.baseXlsx with
    | f :: _ => .found f
    | [] => match fs.cwdXlsx with
      | f :: _ => .found f
      | [] => match fs.baseXls with
        | f :: _ => .found f
        | [] => match fs.cwdXls with
          | f :: _ => .found f
          | [] => .exitOne

/-- Concrete directory layout for claim C7: the script directory holds
only `report.xls`, the working directory holds `other.xlsx`, and the
default-named file exists nowhere. -/
def c7dirs : SearchDirs :=
  { baseHasDefault := false, cwdHasDefault := false
    baseXlsx := [], cwdXlsx := ["other.xlsx"]
    baseXls := ["report.xls"], cwdXls := [] }

/-- How the body of `main` can end: it runs to completion, a keyboard
interrupt reaches the handler, some other exception reaches the
handler, or `sys.exit(c)` was called inside the `try` block
(`SystemExit` is a `BaseException` and passes through both `except`
clauses). -/
inductive BodyOutcome where
  | completed : BodyOutcome
  | keyboardInterrupt : BodyOutcome
  | pythonError : BodyOutcome
  | sysExited : Nat → BodyOutcome
deriving DecidableEq, Repr

/-- Environment determining how one run of `main` unfolds: whether each
pipeline stage succeeds, and at which stage (if any) the user presses
Ctrl-C or an unexpected exception is raised.  Stages are numbered
0 = locate, 1 = read, 2 = normalize/empty check, 3 = parameter check,
4 = generate/browser (browser failures are caught internally and are
not fatal). -/
structure MainEnv where
  locateOk : Bool
  readOk : Bool
  normalizedNonEmpty : Bool
  paramsFound : Bool
  interruptAt : Option Nat
  errorAt : Option Nat
deriving DecidableEq, Repr

/-- Outcome of the `try` block of `main`: stages run in order; a fatal
stage failure calls `sys.exit(1)`; a pending interrupt or unexpected
exception fires when its stage is reached. -/
def mainBody (env : MainEnv) : BodyOutcome :=
  if env.interruptAt = some 0 then .keyboardInterrupt
  else if env.errorAt = some 0 then .pythonError
  else if env.locateOk = false then .sysExited 1
  else if env.interruptAt = some 1 then .keyboardInterrupt
  else if env.errorAt = some 1 then .pythonError
  else if env.readOk = false then .sysExited 1
  else if env.interruptAt = some 2 then .keyboardInterrupt
  else if env.errorAt = some 2 then .pythonError
  else if env.normalizedNonEmpty = false then .sysExited 1
  else if env.interruptAt = some 3 then .keyboardInterrupt
  else if env.errorAt = some 3 then .pythonError
  else if env.paramsFound = false then .sysExited 1
  else if env.interruptAt = some 4 then .keyboardInterrupt
  else if env.errorAt = some 4 then .pythonError
  else .completed

/-- Embeds the `try`/`except` dispatch of `main`: process exit status
and the final log message, if any, emitted by the handlers.
`except KeyboardInterrupt` logs and calls `sys.exit(0)`;
`except Exception` logs and calls `sys.exit(1)`; a `SystemExit` raised
inside the `try` block is caught by neither handler and keeps its
code; completion returns normally (status 0). -/
def mainRun (env : MainEnv) : Nat × Option String :=
  match mainBody env with
  | .completed => (0, none)
  | .keyboardInterrupt => (0, some "Process interrupted by user")
  | .pythonError => (1, some "Unexpected error")
  | .sysExited c => (c, none)

/-- True when the first list is a prefix of the second. -/
def charsStart : List Char → List Char → Bool
  | [], _ => true
  | _ :: _, [] => false
  | a :: as, b :: bs => a = b && charsStart as bs

/-- True when `pat` occurs as a contiguous sublist. -/
def charsHasSub (pat : List Char) : List Char → Bool
  | [] => pat.isEmpty
  | c :: rest => charsStart pat (c :: rest) || charsHasSub pat rest

/-- True when `pat` occurs as a substring of `s` (model of the
JavaScript `includes` and the Python `in` operator on strings). -/
def containsSub (pat s : String) : Bool :=
  charsHasSub pat.data s.data

/-- ASCII lowering of one character. -/
def lowerChar (c : Char) : Char :=
  if 65 ≤ c.toNat ∧ c.toNat ≤ 90 then Char.ofNat (c.toNat + 32) else c

/-- ASCII lowering of a string (model of `str.lower()`). -/
def lowerString (s : String) : String :=
  ⟨s.data.map lowerChar⟩

/-- One spreadsheet row after `_convert_numeric_columns`: the essential
columns keep their types (`Date` as an abstract timestamp, `Location`
and `Month` as strings, `Year` as a nullable integer, `Lat`/`Long` as
nullable floats) and every other column has been coerced to a nullable
number.  `params` lists the non-essential numeric columns by name. -/
structure PRow where
  date : Option Int
  location : Option String
  month : Option String
  year : Option Int
  lat : Option ℚ
  long : Option ℚ
  params : List (String × Option ℚ)
deriving DecidableEq, Repr

/-- The `df[numeric_cols].notna().any(axis=1)` row predicate of
`_clean_data`: the numeric-dtype columns are `Year`, `Lat`, `Long` and
every coerced parameter column, so any one of them being present keeps
the row. -/
def numericAnyPresent (r : PRow) : Bool :=
  r.year.isSome || r.lat.isSome || r.long.isSome ||
    r.params.any (fun p => p.2.isSome)

/-- The header-sniffing test of `_clean_data` on one cell: a string
containing `weight` or `ideal range` (lowercased).  After numeric
coercion the only string-valued cells are `Location` and `Month`. -/
def strHasHeaderToken (s : String) : Bool :=
  containsSub "weight" (lowerString s) || containsSub "ideal range" (lowerString s)

/-- True when the first retained row looks like an embedded header row. -/
def isHeaderRow (r : PRow) : Bool :=
  (match r.location with | some s => strHasHeaderToken s | none => false) ||
  (match r.month with | some s => strHasHeaderToken s | none => false)

/-- Embeds the `df.iloc[1:]` drop of an embedded header row. -/
def dropHeaderRow (l : List PRow) : List PRow :=
  match l with
  | [] => []
  | r :: rest => if isHeaderRow r then rest else r :: rest

/-- Embeds `df.loc[df["WQI"] == 0, "WQI"] = np.nan`: every parameter
cell named `WQI` holding exactly `0` becomes missing. -/
def zeroWQIToNone (r : PRow) : PRow :=
  { r with
    params := r.params.map fun p =>
      if p.1 = "WQI" ∧ p.2 = some 0 then (p.1, none) else p }

/-- The `dropna(subset=["Date", "Location"])` stage of `_clean_data`:
it runs only when the frame has both a `Date` and a `Location` column
(`if "Date" in df.columns and "Location" in df.columns`); otherwise
the rows pass through untouched. -/
def dropnaDateLoc (hasDateCol hasLocationCol : Bool) (rows : List PRow) : List PRow :=
  if hasDateCol && hasLocationCol then
    rows.filter (fun r => r.date.isSome && r.location.isSome)
  else rows

/-- The `notna().any(axis=1)` stage of `_clean_data`: it runs only when
the frame has at least one numeric-dtype column
(`if len(numeric_cols) > 0`); otherwise the rows pass through. -/
def numericFilter (hasNumericCols : Bool) (rows : List PRow) : List PRow :=
  if hasNumericCols then rows.filter numericAnyPresent else rows

/-- Embeds `DataProcessor._clean_data`: drop rows missing `Date` or
`Location` (only when both columns exist), keep rows with at least one
non-missing numeric cell (only when numeric-dtype columns exist), drop
an embedded header row, then null the zero-WQI sentinels.  (The zero
nulling runs after the two row filters.) -/
def clean_data (hasDateCol hasLocationCol hasNumericCols : Bool)
    (rows : List PRow) : List PRow :=
  (dropHeaderRow (numericFilter hasNumericCols
    (dropnaDateLoc hasDateCol hasLocationCol rows))).map zeroWQIToNone

/-- One embedded JSON row as the browser sees it: essential fields plus
the serialized parameter cells. -/
structure JRow where
  date : Option Int
  location : Option String
  month : Option String
  year : Option Int
  cells : List (String × JSCell)
deriving DecidableEq, Repr

/-- Serialization of one cell by `prepare_json_data`: missing becomes
`null`, a finite number stays a number. -/
def jsCellOfOpt (o : Option ℚ) : JSCell :=
  match o with
  | none => .nullv
  | some q => .num q

/-- Embeds `prepare_json_data` on one cleaned row. -/
def prepareJsonRow (r : PRow) : JRow :=
  { date := r.date, location := r.location, month := r.month, year := r.year
    cells := r.params.map (fun p => (p.1, jsCellOfOpt p.2)) }

/-- JavaScript property access `row[param]`: a missing property is
`undefined`. -/
def getCell (r : JRow) (param : String) : JSCell :=
  match r.cells.find? (fun p => p.1 = param) with
  | some p => p.2
  | none => .undefv

/-- Append `v` to the entry of year `y` in an association list of value
lists, creating the entry at the end on first sight (JavaScript object
insertion). -/
def pushVal (l : List (Int × List ℚ)) (y : Int) (v : ℚ) : List (Int × List ℚ) :=
  match l with
  | [] => [(y, [v])]
  | e :: rest => if e.1 = y then (e.1, e.2 ++ [v]) :: rest else e :: pushVal rest y v

/-- Increment the counter of year `y` in an association list, creating
the entry at the end on first sight. -/
def bumpCount (l : List (Int × Nat)) (y : Int) : List (Int × Nat) :=
  match l with
  | [] => [(y, 1)]
  | e :: rest => if e.1 = y then (e.1, e.2 + 1) :: rest else e :: bumpCount rest y

/-- Values collected for year `y` (empty when the year is absent). -/
def lookupVals (l : List (Int × List ℚ)) (y : Int) : List ℚ :=
  match l.find? (fun e => e.1 = y) with
  | some e => e.2
  | none => []

/-- Mean of a list of numbers, as computed by
`values.reduce((a,b) => a+b, 0) / values.length`. -/
def avgList (vs : List ℚ) : ℚ :=
  vs.foldl (· + ·) 0 / (vs.length : ℚ)

/-- Lexicographic comparison of character lists (UTF-16 code order on
the ASCII digits involved here). -/
def charListLe : List Char → List Char → Bool
  | [], _ => true
  | _ :: _, [] => false
  | a :: as, b :: bs => if a = b then charListLe as bs else decide (a < b)

/-- Lexicographic string comparison. -/
def strLe (a b : String) : Bool :=
  charListLe a.data b.data

/-- Insert into a list sorted by the JavaScript default comparator,
which compares the decimal string forms (for the four-digit years of
this dataset this coincides with numeric order). -/
def insertByStr (x : Int) : List Int → List Int
  | [] => [x]
  | y :: ys => if strLe (toString y) (toString x) then y :: insertByStr x ys else x :: y :: ys

/-- Embeds `Object.keys(...).map(y => parseInt(y)).sort()`. -/
def jsSortInts (l : List Int) : List Int :=
  l.foldl (fun acc x => insertByStr x acc) []

/-- Insert into a year-keyed pair list in ascending year order
(JavaScript objects enumerate integer-like keys numerically). -/
def insertPairByYear (x : Int × Nat) : List (Int × Nat) → List (Int × Nat)
  | [] => [x]
  | y :: ys => if y.1 ≤ x.1 then y :: insertPairByYear x ys else x :: y :: ys

/-- Sort a year-keyed pair list in ascending year order. -/
def sortPairsByYear (l : List (Int × Nat)) : List (Int × Nat) :=
  l.foldl (fun acc x => insertPairByYear x acc) []

/-- Output of `renderWQIYearlyAvg`: either the no-data message, or the
sorted year list, the per-year averages of the nonzero WQI values, the
zero-WQI counters and the `0 (n)` annotations drawn from them. -/
structure WQIYearlyChart where
  noData : Bool
  years : List Int
  avgWQI : List ℚ
  zeroEntries : List (Int × Nat)
  annotations : List (Int × Nat)
deriving DecidableEq, Repr

/-- One step of the accumulation loop of `renderWQIYearlyAvg`: a row is
skipped when its year is falsy (null or 0) or its WQI cell is null or
undefined; a WQI of exactly 0 increments the zero counter for the
year; any other number joins the year bucket. -/
def wqiYearlyStep (acc : List (Int × List ℚ) × List (Int × Nat)) (r : JRow) :
    List (Int × List ℚ) × List (Int × Nat) :=
  match r.year with
  | none => acc
  | some y =>
    if y = 0 then acc
    else
      match getCell r "WQI" with
      | .nullv => acc
      | .undefv => acc
      | .num q => if q = 0 then (acc.1, bumpCount acc.2 y) else (pushVal acc.1 y q, acc.2)

/-- Accumulation loop of `renderWQIYearlyAvg` over all rows. -/
def wqiYearlyAccum (rows : List JRow) : List (Int × List ℚ) × List (Int × Nat) :=
  rows.foldl wqiYearlyStep ([], [])

/-- Embeds `renderWQIYearlyAvg(containerId, rows)`.  When no year has a
valid nonzero WQI value the function renders the no-data message and
returns before emitting any annotation. -/
def renderWQIYearlyAvg (rows : List JRow) : WQIYearlyChart :=
  let acc := wqiYearlyAccum rows
  let years := jsSortInts (acc.1.map (fun e => e.1))
  if years = [] then
    { noData := true, years := [], avgWQI := [], zeroEntries := acc.2, annotations := [] }
  else
    { noData := false, years := years
      avgWQI := years.map (fun y => avgList (lookupVals acc.1 y))
      zeroEntries := acc.2
      annotations := sortPairsByYear acc.2 }

/-- End-to-end path for the yearly WQI chart on the standard
spreadsheet layout (`Date`, `Location` and numeric columns all
present): the generator cleans the frame, serializes it and the
browser renders the chart from the embedded rows. -/
def generatorPipelineChart (rows : List PRow) : WQIYearlyChart :=
  renderWQIYearlyAvg ((clean_data true true true rows).map prepareJsonRow)

/-- Concrete record with the `WQI = 0` sentinel for claim C5. -/
def c5zeroRow : PRow :=
  { date := some 10, location := some "ITO", month := some "June",
    year := some 2021, lat := none, long := none,
    params := [("WQI", some 0), ("pH", none)] }

/-- Concrete two-row frame for claim C5: one record with the `WQI = 0`
sentinel and one with `WQI = 120`, both for year 2021 and with `Date`
and `Location` present. -/
def c5rows : List PRow :=
  [c5zeroRow,
   { date := some 11, location := some "Palla", month := some "June",
     year := some 2021, lat := none, long := none,
     params := [("WQI", some 120), ("pH", some 7)] }]

/-- The `param.includes('DO_mg_L')` test of the insight helpers. -/
def paramIsDO (param : String) : Bool :=
  containsSub "DO_mg_L" param

/-- True when the best year is the one with the highest mean: only for
dissolved-oxygen parameters (the `WQI` branch is checked first in the
source and picks the lowest mean). -/
def hiIsBest (param : String) : Bool :=
  !(param = "WQI") && paramIsDO param

/-- Embeds the `isImproving` assignment of the yearly/temporal trend
helpers: for `WQI` a negative change improves, for `DO_mg_L`-named
parameters a positive change improves, for everything else a negative
change improves. -/
def isImprovingChange (param : String) (c : ℚ) : Bool :=
  if param = "WQI" then decide (c < 0)
  else if paramIsDO param then decide (0 < c)
  else decide (c < 0)

/-- Result of `generateYearlyPerformanceAnalysis`: the sorted year
list, the per-year means, first/last year and their means, the
relative change in percent, the best/worst year with their means, and
the classification booleans of the rendered message (`stable` below
5 percent, `significant` above 20 percent, `improving` per the
directionality rule). -/
structure YearlyPerf where
  years : List Int
  yearAvgs : List (Int × ℚ)
  firstYear : Int
  lastYear : Int
  firstAvg : ℚ
  lastAvg : ℚ
  overallChange : ℚ
  bestYear : Int
  bestAvg : ℚ
  worstYear : Int
  worstAvg : ℚ
  stable : Bool
  improving : Bool
  significant : Bool
deriving DecidableEq, Repr

/-- Year-bucket accumulation loop of `generateYearlyPerformanceAnalysis`:
a row contributes when its analysis value is non-null and its year is
truthy. -/
def ypAccum (rows : List JRow) (param : String) : List (Int × List ℚ) :=
  rows.foldl
    (fun acc r =>
      match getAnalysisValue (getCell r param) param, r.year with
      | some v, some y => if y = 0 then acc else pushVal acc y v
      | _, _ => acc) []

/-- One best-year update: `avg < bestAvg` replaces for low-is-best
parameters, `avg > bestAvg` for high-is-best ones. -/
def selBest (hi : Bool) (b ya : Int × ℚ) : Int × ℚ :=
  if (if hi then b.2 < ya.2 else ya.2 < b.2) then ya else b

/-- One worst-year update, mirroring `selBest`. -/
def selWorst (hi : Bool) (w ya : Int × ℚ) : Int × ℚ :=
  if (if hi then ya.2 < w.2 else w.2 < ya.2) then ya else w

/-- Embeds `generateYearlyPerformanceAnalysis(rows, param)`, which
returns `null` with fewer than two distinct years. -/
def generateYearlyPerformanceAnalysis (rows : List JRow) (param : String) :
    Option YearlyPerf :=
  let yearlyData := ypAccum rows param
  let years := jsSortInts (yearlyData.map (fun e => e.1))
  if years.length < 2 then none
  else
    let yearAvgs := years.map (fun y => (y, avgList (lookupVals yearlyData y)))
    let firstYear := years.headD 0
    let lastYear := years.getLastD 0
    let firstAvg := avgList (lookupVals yearlyData firstYear)
    let lastAvg := avgList (lookupVals yearlyData lastYear)
    let overallChange := ((lastAvg - firstAvg) / firstAvg) * 100
    let best := yearAvgs.foldl (selBest (hiIsBest param)) (firstYear, firstAvg)
    let worst := yearAvgs.foldl (selWorst (hiIsBest param)) (firstYear, firstAvg)
    some
      { years := years, yearAvgs := yearAvgs
        firstYear := firstYear, lastYear := lastYear
        firstAvg := firstAvg, lastAvg := lastAvg
        overallChange := overallChange
        bestYear := best.1, bestAvg := best.2
        worstYear := worst.1, worstAvg := worst.2
        stable := decide (|overallChange| < 5)
        improving := isImprovingChange param overallChange
        significant := decide (20 < |overallChange|) }

/-- Stable ascending insertion by date key (the `sort((a, b) => a.date - b.date)`
of the temporal trend helper). -/
def insertByDate (x : Int × ℚ) : List (Int × ℚ) → List (Int × ℚ)
  | [] => [x]
  | y :: ys => if y.1 ≤ x.1 then y :: insertByDate x ys else x :: y :: ys

/-- Sort a dated series chronologically. -/
def sortByDate (l : List (Int × ℚ)) : List (Int × ℚ) :=
  l.foldl (fun acc x => insertByDate x acc) []

/-- Result of `generateTemporalTrendAnalysis`: the early-to-recent
relative change and the classification of the rendered message. -/
structure TemporalTrend where
  trendChange : ℚ
  stable : Bool
  improving : Bool
deriving DecidableEq, Repr

/-- Embeds `generateTemporalTrendAnalysis(rows, param)`: needs at least
6 dated values, splits the chronological series at 60 percent and
compares the two period means. -/
def generateTemporalTrendAnalysis (rows : List JRow) (param : String) :
    Option TemporalTrend :=
  let ts := sortByDate
    ((rows.filter (fun r =>
        r.date.isSome && (getAnalysisValue (getCell r param) param).isSome)).map
      (fun r => (r.date.getD 0, (getAnalysisValue (getCell r param) param).getD 0)))
  if ts.length < 6 then none
  else
    let splitPoint := ts.length * 6 / 10
    let early := ts.take splitPoint
    let recent := ts.drop splitPoint
    let earlyAvg := avgList (early.map (fun e => e.2))
    let recentAvg := avgList (recent.map (fun e => e.2))
    let trendChange := ((recentAvg - earlyAvg) / earlyAvg) * 100
    some
      { trendChange := trendChange
        stable := decide (|trendChange| < 5)
        improving := isImprovingChange param trendChange }

/-- An analytical callout of the Insights panel.  The
`seasonalPattern` shape (best month, worst month, percentage spread)
is the statement the specification describes; it is part of the
vocabulary so that its absence from `generateInsights` can be
expressed. -/
inductive Insight where
  | selectPrompt : Insight
  | coverage : Option ℤ → Nat → Nat → Insight
  | yearlyPerformance : YearlyPerf → Insight
  | temporalTrend : TemporalTrend → Insight
  | complianceRate : ℚ → Insight
  | seasonalPattern : String → String → ℚ → Insight
deriving DecidableEq, Repr

/-- True exactly on seasonal-pattern callouts. -/
def isSeasonalIns : Insight → Bool
  | .seasonalPattern _ _ _ => true
  | _ => false

/-- First-occurrence deduplication (JavaScript `new Set`, which keeps
insertion order). -/
def dedupKeepAux {α : Type} [DecidableEq α] (seen : List α) : List α → List α
  | [] => []
  | a :: l => if a ∈ seen then dedupKeepAux seen l else a :: dedupKeepAux (a :: seen) l

/-- First-occurrence deduplication of a list. -/
def dedupKeep {α : Type} [DecidableEq α] (l : List α) : List α :=
  dedupKeepAux [] l

/-- `Math.min` over a spread list (`none` for the empty list). -/
def jsMinList (l : List Int) : Option Int :=
  l.foldl (fun acc x => match acc with | none => some x | some m => some (min m x)) none

/-- `Math.max` over a spread list (`none` for the empty list). -/
def jsMaxList (l : List Int) : Option Int :=
  l.foldl (fun acc x => match acc with | none => some x | some m => some (max m x)) none

/-- The `maxYear - minYear + 1` span of the coverage insight. -/
def spanOf (years : List Int) : Option ℤ :=
  match jsMinList years, jsMaxList years with
  | some a, some b => some (b - a + 1)
  | _, _ => none

/-- The truthy year values of the filtered rows, deduplicated
(`[...new Set(rows.map(r => r.Year).filter(y => y))]`). -/
def yearRangeOf (rows : List JRow) : List Int :=
  dedupKeep (rows.filterMap (fun r =>
    match r.year with
    | some y => if y = 0 then none else some y
    | none => none))

/-- The always-present coverage insight: year span, distinct location
count (`null` locations count as one entry of the set), row count. -/
def coverageInsight (rows : List JRow) : Insight :=
  .coverage (spanOf (yearRangeOf rows))
    (dedupKeep (rows.map (fun r => r.location))).length rows.length

/-- The yearly-performance and temporal-trend insights emitted for a
single selected parameter spanning at least two years. -/
def yearlyInsights (rows : List JRow) (param : String) : List Insight :=
  (match generateYearlyPerformanceAnalysis rows param with
   | some p => [.yearlyPerformance p]
   | none => []) ++
  (match generateTemporalTrendAnalysis rows param with
   | some t => [.temporalTrend t]
   | none => [])

/-- The per-value compliance test of the compliance-rate insight. -/
def isCompliantVal (param : String) (v : ℚ) : Bool :=
  if param = "pH" then decide (6.5 ≤ v ∧ v ≤ 8.5)
  else if paramIsDO param then decide (5 ≤ v)
  else if containsSub "BOD_mg_L" param || containsSub "COD_mg_L" param then decide (v ≤ 3)
  else if containsSub "Coliform" param then decide (v ≤ 500)
  else if param = "WQI" then decide (v < 100)
  else true

/-- The compliance-rate insight for a single selected parameter,
absent when no valid value exists. -/
def complianceInsights (rows : List JRow) (param : String) : List Insight :=
  let vals := rows.filterMap (fun r => getAnalysisValue (getCell r param) param)
  if vals.length = 0 then []
  else
    [.complianceRate
      (((vals.filter (fun v => isCompliantVal param v)).length : ℚ) /
        (vals.length : ℚ) * 100)]

/-- Embeds `generateInsights(rows, params)`: the selection prompt for
an empty view, otherwise the coverage callout followed by the
yearly/temporal callouts (single parameter, at least two distinct
years) and the compliance callout (single parameter), truncated to 7.
No seasonal-pattern callout is computed anywhere in this function. -/
def generateInsights (rows : List JRow) (params : List String) : List Insight :=
  if rows.isEmpty || params.isEmpty then [.selectPrompt]
  else
    (coverageInsight rows ::
      ((if params.length = 1 ∧ 2 ≤ (yearRangeOf rows).length then
          yearlyInsights rows (params.headD "")
        else []) ++
       (if params.length = 1 then complianceInsights rows (params.headD "")
        else []))).take 7

/-- Embeds `filterData()`: each facet with a non-empty selection keeps
the rows whose (truthy) field value is among the selected values. -/
def filterData (selLocs selMonths : List String) (selYears : List Int)
    (data : List JRow) : List JRow :=
  let r1 := if selLocs.isEmpty then data
    else data.filter (fun r =>
      match r.location with
      | some l => !(l = "") && selLocs.contains l
      | none => false)
  let r2 := if selMonths.isEmpty then r1
    else r1.filter (fun r =>
      match r.month with
      | some m => !(m = "") && selMonths.contains m
      | none => false)
  if selYears.isEmpty then r2
  else r2.filter (fun r =>
    match r.year with
    | some y => !(y = 0) && selYears.contains y
    | none => false)

/-- Embeds the `DATA.find(...)` resolution of `updateComparisonPoint`:
the first record of the full embedded dataset matching the chosen
location, year and month exactly. -/
def resolveComparisonPoint (data : List JRow) (loc : String) (yr : Int)
    (mon : String) : Option JRow :=
  data.find? (fun r =>
    decide (r.location = some loc ∧ r.year = some yr ∧ r.month = some mon))

/-- Concrete embedded record for claim C4. -/
def c4row : JRow :=
  { date := none, location := some "ITO", month := some "June",
    year := some 2021, cells := [("WQI", .num 150)] }

/-- Concrete embedded dataset for claim C4. -/
def c4data : List JRow := [c4row]

/-- Concrete rows for claim C3: single parameter `WQI`, yearly means
100 (2020) and 150 (2021) — the yearly average increased. -/
def c3rows : List JRow :=
  [{ date := some 100, location := some "Palla", month := some "June",
     year := some 2020, cells := [("WQI", .num 100)] },
   { date := some 200, location := some "Palla", month := some "June",
     year := some 2021, cells := [("WQI", .num 150)] }]

/-- The yearly-performance result computed for `c3rows` and `WQI`:
means rose from 100 to 150 (+50 percent), classified as a significant
deterioration with 2020 the best year and 2021 the worst. -/
def c3perf : YearlyPerf :=
  { years := [2020, 2021], yearAvgs := [(2020, 100), (2021, 150)],
    firstYear := 2020, lastYear := 2021, firstAvg := 100, lastAvg := 150,
    overallChange := 50, bestYear := 2020, bestAvg := 100,
    worstYear := 2021, worstAvg := 150,
    stable := false, improving := false, significant := true }

/-- Concrete rows for claim C8: one selected parameter and three
distinct months within a single year. -/
def c8rows : List JRow :=
  [{ date := some 1, location := some "Palla", month := some "June",
     year := some 2021, cells := [("pH", .num 7)] },
   { date := some 2, location := some "Palla", month := some "July",
     year := some 2021, cells := [("pH", .num 8)] },
   { date := some 3, location := some "Palla", month := some "August",
     year := some 2021, cells := [("pH", .num 9)] }]

/-- A JavaScript number for the Streeter-Phelps computation: NaN, the
signed infinities, or a finite value (modelled exactly). -/
inductive JSNum where
  | nan : JSNum
  | inf : JSNum
  | ninf : JSNum
  | fin : ℚ → JSNum
deriving DecidableEq, Repr

/-- JavaScript unary minus. -/
def JSNum.neg : JSNum → JSNum
  | nan => nan
  | inf => ninf
  | ninf => inf
  | fin q => fin (-q)

/-- JavaScript addition with IEEE special cases. -/
def JSNum.add : JSNum → JSNum → JSNum
  | nan, _ => nan
  | _, nan => nan
  | inf, ninf => nan
  | ninf, inf => nan
  | inf, _ => inf
  | ninf, _ => ninf
  | fin _, inf => inf
  | fin _, ninf => ninf
  | fin a, fin b => fin (a + b)

/-- JavaScript subtraction. -/
def JSNum.sub (a b : JSNum) : JSNum :=
  a.add b.neg

/-- JavaScript multiplication with IEEE special cases
(`Infinity * 0` is NaN). -/
def JSNum.mul : JSNum → JSNum → JSNum
  | nan, _ => nan
  | _, nan => nan
  | inf, inf => inf
  | inf, ninf => ninf
  | ninf, inf => ninf
  | ninf, ninf => inf
  | inf, fin q => if q = 0 then nan else if 0 < q then inf else ninf
  | fin q, inf => if q = 0 then nan else if 0 < q then inf else ninf
  | ninf, fin q => if q = 0 then nan else if 0 < q then ninf else inf
  | fin q, ninf => if q = 0 then nan else if 0 < q then ninf else inf
  | fin a, fin b => fin (a * b)

/-- JavaScript division with IEEE special cases: division by (positive)
zero yields a signed infinity, `0/0` yields NaN, a finite value over an
infinity yields zero. -/
def JSNum.div : JSNum → JSNum → JSNum
  | nan, _ => nan
  | _, nan => nan
  | inf, inf => nan
  | inf, ninf => nan
  | ninf, inf => nan
  | ninf, ninf => nan
  | inf, fin q => if 0 ≤ q then inf else ninf
  | ninf, fin q => if 0 ≤ q then ninf else inf
  | fin _, inf => fin 0
  | fin _, ninf => fin 0
  | fin a, fin b =>
    if b = 0 then (if a = 0 then nan else if 0 < a then inf else ninf)
    else fin (a / b)

/-- The JavaScript `>` comparison: false whenever NaN is involved. -/
def JSNum.gt : JSNum → JSNum → Bool
  | nan, _ => false
  | _, nan => false
  | inf, inf => false
  | inf, _ => true
  | ninf, _ => false
  | fin _, inf => false
  | fin _, ninf => true
  | fin a, fin b => decide (b < a)

/-- The JavaScript `<` comparison: false whenever NaN is involved. -/
def JSNum.lt : JSNum → JSNum → Bool
  | nan, _ => false
  | _, nan => false
  | inf, _ => false
  | ninf, ninf => false
  | ninf, _ => true
  | fin _, inf => true
  | fin _, ninf => false
  | fin a, fin b => decide (a < b)

/-- JavaScript truthiness of a number: NaN and 0 are falsy. -/
def jsTruthy : JSNum → Bool
  | .nan => false
  | .inf => true
  | .ninf => true
  | .fin q => decide (q ≠ 0)

/-- Result object of `calculateStreeterPhelps`: the fixed constants,
the deficits, the prediction, the critical point fields (`null` when
the critical time is not positive) and the process rates. -/
structure SPResult where
  k1 : JSNum
  k2 : JSNum
  DOsat : JSNum
  initialDeficit : JSNum
  currentDeficit : JSNum
  predictedDeficit : JSNum
  predictedDO : JSNum
  actualDO : JSNum
  criticalTime : Option JSNum
  criticalDeficit : Option JSNum
  BODremaining : JSNum
  deoxygenationRate : JSNum
  rearationRate : JSNum
deriving DecidableEq, Repr

/-- The argument of the critical-time logarithm,
`(k2/k1) * (1 - ((k2 - k1) * D1) / (k1 * BOD1))` with `k1 = 0.1`,
`k2 = 0.4`, `DOsat = 9` and `D1 = DOsat - DO1`. -/
def spLogArg (BOD1 DO1 : JSNum) : JSNum :=
  let k1 : JSNum := .fin 0.1
  let k2 : JSNum := .fin 0.4
  let DOsat : JSNum := .fin 9
  let D1 := DOsat.sub DO1
  (k2.div k1).mul ((JSNum.fin 1).sub (((k2.sub k1).mul D1).div (k1.mul BOD1)))

/-- Embeds `calculateStreeterPhelps(BOD1, DO1, BOD2, DO2)` with the
default elapsed time of 1 day.  `jslog` and `jsexp` stand for the
boundary `Math.log` and `Math.exp`; the critical point is reported
only when the computed `tc` compares greater than 0 (a NaN or negative
`tc` yields `null`). -/
def calculateStreeterPhelps (jslog jsexp : JSNum → JSNum)
    (BOD1 DO1 BOD2 DO2 : JSNum) : SPResult :=
  let k1 : JSNum := .fin 0.1
  let k2 : JSNum := .fin 0.4
  let DOsat : JSNum := .fin 9
  let t : JSNum := .fin 1
  let D1 := DOsat.sub DO1
  let Lt := BOD1.mul (jsexp ((k1.neg).mul t))
  let Dt := (((k1.mul BOD1).div (k2.sub k1)).mul
      ((jsexp ((k1.neg).mul t)).sub (jsexp ((k2.neg).mul t)))).add
    (D1.mul (jsexp ((k2.neg).mul t)))
  let tc := ((JSNum.fin 1).div (k2.sub k1)).mul (jslog (spLogArg BOD1 DO1))
  let Dc := ((k1.mul BOD1).div k2).mul (jsexp ((k1.neg).mul tc))
  { k1 := k1, k2 := k2, DOsat := DOsat
    initialDeficit := D1
    currentDeficit := DOsat.sub DO2
    predictedDeficit := Dt
    predictedDO := DOsat.sub Dt
    actualDO := DO2
    criticalTime := if tc.gt (.fin 0) then some tc else none
    criticalDeficit := if tc.gt (.fin 0) then some Dc else none
    BODremaining := Lt
    deoxygenationRate := k1.mul BOD1
    rearationRate := k2.mul D1 }

/-- The guard of the critical-sag block of
`renderWQIComparisonResults`:
`criticalTime && criticalTime > 0 && criticalTime < 10`. -/
def showCriticalSag (r : SPResult) : Bool :=
  match r.criticalTime with
  | none => false
  | some tc => jsTruthy tc && tc.gt (.fin 0) && tc.lt (.fin 10)

/-- Behavior of `Math.log` on the arguments relevant here: NaN on NaN,
NaN on negative values and on negative infinity, negative infinity at
zero. -/
def LogSpec (L : JSNum → JSNum) : Prop :=
  L .nan = .nan ∧ L .ninf = .nan ∧ L (.fin 0) = .ninf ∧
  ∀ q : ℚ, q < 0 → L (.fin q) = .nan

/-- A non-positive (or non-finite, from a zero `k1*BOD1` denominator)
logarithm argument. -/
def jsNonPos (a : JSNum) : Prop :=
  a = .nan ∨ a = .ninf ∨ ∃ q, q ≤ 0 ∧ a = .fin q

/-- Test double for the boundary `Math.log`, satisfying `LogSpec`; its
value on positive finite inputs does not matter for the safety
statement. -/
def jsLogModel : JSNum → JSNum
  | .nan => .nan
  | .ninf => .nan
  | .inf => .inf
  | .fin q => if q < 0 then .nan else if q = 0 then .ninf else .fin 1

/-- Test double for the boundary `Math.exp`. -/
def jsExpModel : JSNum → JSNum :=
  fun _ => .fin 1

/-- Claim C1: for every sample with pH, BOD and DO all present,
`calculateWQIBreakdown` returns the three-parameter weighted index with
the stated sub-index formulas, constant `k = 1/(1/8.5 + 1/3 + 1/5)`,
weights `k/Si`, per-parameter contributions `Qi*Wi` and WQI equal to
the sum of the three contributions; at `pH = 7.8`, `BOD = 4.0`,
`DO = 4.5` the computed sub-indices, `k` and summed WQI agree with the
hand computation (53.33, 133.33, 105.21, 1.5361, 110.23) within
plus or minus 0.01. -/
theorem C1_wqi_breakdown_formula :
    (∀ pH BOD DO : ℚ, ∃ b : WQIBreakdown,
      calculateWQIBreakdown (some pH) (some BOD) (some DO) = some b ∧
      b.Qi_pH = (if pH ≥ 7 then ((pH - 7) / (8.5 - 7)) * 100
                 else ((7 - pH) / (7 - 6.5)) * 100) ∧
      b.Qi_BOD = (BOD / 3) * 100 ∧
      b.Qi_DO = max 0 (((14.6 - DO) / (14.6 - 5)) * 100) ∧
      b.k = 1 / (1 / 8.5 + 1 / 3 + 1 / 5) ∧
      b.w_pH = b.k / 8.5 ∧ b.w_BOD = b.k / 3 ∧ b.w_DO = b.k / 5 ∧
      b.contrib_pH = b.Qi_pH * b.w_pH ∧
      b.contrib_BOD = b.Qi_BOD * b.w_BOD ∧
      b.contrib_DO = b.Qi_DO * b.w_DO ∧
      b.WQI = b.contrib_pH + b.contrib_BOD + b.contrib_DO) ∧
    (∃ b : WQIBreakdown,
      calculateWQIBreakdown (some 7.8) (some 4) (some 4.5) = some b ∧
      |b.Qi_pH - 53.33| ≤ 0.01 ∧ |b.Qi_BOD - 133.33| ≤ 0.01 ∧
      |b.Qi_DO - 105.21| ≤ 0.01 ∧ |b.k - 1.5361| ≤ 0.01 ∧
      |b.WQI - 110.23| ≤ 0.01) := by
  constructor
  · intro pH BOD DO
    refine ⟨_, rfl, ?_, ?_, ?_, ?_, ?_, ?_, ?_, ?_, ?_, ?_, ?_⟩ <;>
      simp [calculateWQIBreakdown] <;> ring_nf
  · refine ⟨_, rfl, ?_, ?_, ?_, ?_, ?_⟩ <;>
      simp [calculateWQIBreakdown] <;> rw [abs_le] <;> constructor <;> norm_num [max_def]

/-- Claim C2: the classification chain assigns exactly one of the five
bands, characterized by `< 50`, `50 ≤ v < 100`, `100 ≤ v < 200`,
`200 ≤ v < 300`, `300 ≤ v`, and the boundary values 49.99, 50, 100,
200, 300, 300.01 classify as Excellent, Good, Poor, Very Poor,
Unsuitable, Unsuitable respectively. -/
theorem C2_wqi_classification_bands :
    (∀ v : ℚ,
      (wqiClassOf v = .excellent ↔ v < 50) ∧
      (wqiClassOf v = .good ↔ 50 ≤ v ∧ v < 100) ∧
      (wqiClassOf v = .poor ↔ 100 ≤ v ∧ v < 200) ∧
      (wqiClassOf v = .veryPoor ↔ 200 ≤ v ∧ v < 300) ∧
      (wqiClassOf v = .unsuitable ↔ 300 ≤ v)) ∧
    wqiClassOf 49.99 = .excellent ∧ wqiClassOf 50 = .good ∧
    wqiClassOf 100 = .poor ∧ wqiClassOf 200 = .veryPoor ∧
    wqiClassOf 300 = .unsuitable ∧ wqiClassOf 300.01 = .unsuitable := by
  refine ⟨?_, by norm_num [wqiClassOf], by norm_num [wqiClassOf],
    by norm_num [wqiClassOf], by norm_num [wqiClassOf],
    by norm_num [wqiClassOf], by norm_num [wqiClassOf]⟩
  intro v
  unfold wqiClassOf
  split_ifs with h1 h2 h3 h4 <;>
    refine ⟨?_, ?_, ?_, ?_, ?_⟩ <;> simp_all <;> intros <;> linarith

/-- Claim C7, counterexample: with `report.xls` in the program
directory (no default-named file, no `*.xlsx` there) and `other.xlsx`
in the working directory, `locate_input_file` returns the working
directory file `other.xlsx`, not the program directory file
`report.xls` the claim requires: the glob loop tries the `*.xlsx`
pattern in both directories before ever trying `*.xls`. -/
theorem C7_locate_order_counterexample :
    locate_input_file c7dirs = .found "other.xlsx" ∧
    c7dirs.baseXls = ["report.xls"] ∧ c7dirs.baseXlsx = [] ∧
    c7dirs.baseHasDefault = false ∧ c7dirs.cwdHasDefault = false := by
  refine ⟨?_, rfl, rfl, rfl, rfl⟩
  rfl

/-- Claim C7 as amended: the search order is (1) default name in the
program directory, (2) default name in the working directory, then per
glob pattern, `*.xlsx` in the program directory, `*.xlsx` in the
working directory, `*.xls` in the program directory, `*.xls` in the
working directory; consequently whenever the program directory has a
`*.xls` file but no default file and no `*.xlsx`, while the working
directory has a `*.xlsx` file and no default file, the working
directory `*.xlsx` file is returned. -/
theorem C7_locate_order_amended (fs : SearchDirs) (f : String) (l : List String)
    (h1 : fs.baseHasDefault = false) (h2 : fs.cwdHasDefault = false)
    (h3 : fs.baseXlsx = []) (h4 : fs.cwdXlsx = f :: l) :
    locate_input_file fs = .found f := by
  simp [locate_input_file, h1, h2, h3, h4]

/-- Witness for `C7_locate_order_amended` at the concrete layout
`c7dirs`. -/
theorem C7_locate_order_witness :
    locate_input_file c7dirs = .found "other.xlsx" :=
  C7_locate_order_amended c7dirs "other.xlsx" [] rfl rfl rfl rfl

/-- Claim C10: whenever the body of `main` is interrupted by a keyboard
interrupt, the process logs that it was interrupted by the user and
exits with status 0; any other unexpected exception and every fatal
stage failure produce exit status 1. -/
theorem C10_keyboard_interrupt_status (env : MainEnv)
    (h : mainBody env = .keyboardInterrupt) :
    mainRun env = (0, some "Process interrupted by user") ∧
    (∀ env2 : MainEnv, mainBody env2 = .pythonError → (mainRun env2).1 = 1) ∧
    (∀ env2 : MainEnv, mainBody env2 = .sysExited 1 → (mainRun env2).1 = 1) := by
  refine ⟨?_, ?_, ?_⟩
  · simp [mainRun, h]
  · intro env2 h2; simp [mainRun, h2]
  · intro env2 h2; simp [mainRun, h2]

/-- Witness for `C10_keyboard_interrupt_status`: an interrupt arriving
at stage 2 of an otherwise healthy run exits with status 0. -/
theorem C10_keyboard_interrupt_witness :
    mainRun { locateOk := true, readOk := true, normalizedNonEmpty := true,
              paramsFound := true, interruptAt := some 2, errorAt := none }
      = (0, some "Process interrupted by user") :=
  (C10_keyboard_interrupt_status _ (by rfl)).1

/-- Helper: in the serialized cells of a zero-nulled row, the entry
found under the name `WQI` is never the number 0. -/
theorem zeroed_wqi_cell_ne (l : List (String × Option ℚ)) (p : String × JSCell)
    (h : List.find? (fun e => e.1 = "WQI")
      ((l.map fun e => if e.1 = "WQI" ∧ e.2 = some 0 then (e.1, none) else e).map
        (fun e => (e.1, jsCellOfOpt e.2))) = some p) :
    p.2 ≠ JSCell.num 0 := by
  induction l with
  | nil => simp at h
  | cons a l ih =>
    rcases a with ⟨n, v⟩
    by_cases hn : n = "WQI"
    · subst hn
      rcases v with _ | q
      · simp [List.find?, jsCellOfOpt] at h
        simp [← h]
      · by_cases hq : q = 0
        · subst hq
          simp [List.find?, jsCellOfOpt] at h
          simp [← h]
        · simp [List.find?, jsCellOfOpt, hq] at h
          simp [← h, hq]
    · simp only [List.map_cons] at h
      rw [List.find?_cons_of_neg] at h
      · exact ih h
      · simp [hn]

/-- Helper: when the raw parameter list resolves `WQI` to the zero
sentinel, the serialized zero-nulled cells resolve `WQI` to null. -/
theorem zeroed_wqi_cell_eq (l : List (String × Option ℚ))
    (h : List.find? (fun e => e.1 = "WQI") l = some ("WQI", some 0)) :
    List.find? (fun e => e.1 = "WQI")
      ((l.map fun e => if e.1 = "WQI" ∧ e.2 = some 0 then (e.1, none) else e).map
        (fun e => (e.1, jsCellOfOpt e.2))) = some ("WQI", JSCell.nullv) := by
  induction l with
  | nil => simp at h
  | cons a l ih =>
    rcases a with ⟨n, v⟩
    by_cases hn : n = "WQI"
    · subst hn
      simp [List.find?] at h
      subst h
      simp [List.find?, jsCellOfOpt]
    · rw [List.find?_cons_of_neg _ (by simp [hn])] at h
      simp only [List.map_cons]
      rw [List.find?_cons_of_neg _ (by simp [hn])]
      exact ih h

/-- Helper: rows whose `WQI` cell is never the literal number 0
contribute nothing to the zero counters of the yearly chart loop. -/
theorem wqiYearly_foldl_snd (rows : List JRow)
    (h : ∀ r ∈ rows, getCell r "WQI" ≠ .num 0)
    (acc : List (Int × List ℚ) × List (Int × Nat)) :
    (rows.foldl wqiYearlyStep acc).2 = acc.2 := by
  induction rows generalizing acc with
  | nil => rfl
  | cons r rows ih =>
    have hr := h r (by simp)
    have hrest : ∀ x ∈ rows, getCell x "WQI" ≠ .num 0 := fun x hx => h x (by simp [hx])
    rw [List.foldl_cons, ih hrest]
    unfold wqiYearlyStep
    split
    · rfl
    next y =>
      split
      · rfl
      · split
        · rfl
        · rfl
        next q heq =>
          split
          next hq =>
            subst hq
            exact absurd heq hr
          · rfl

/-- Claim C5, counterexample: the frame `c5rows` holds a `WQI = 0`
record for 2021.  The record survives row filtering (both rows are
retained, so it is counted in the total row count) and the 2021 yearly
average (120) excludes it — but the rendered chart carries no `0 (n)`
annotation at all: the generator already replaced the 0 by a missing
value, so the browser loop files the record under the null check, not
under the zero counter, and `zeroEntries`/`annotations` stay empty
where the claim requires a `0 (1)` annotation for 2021. -/
theorem C5_wqi_zero_annotation_counterexample :
    (clean_data true true true c5rows).length = 2 ∧
    (generatorPipelineChart c5rows).noData = false ∧
    (generatorPipelineChart c5rows).years = [2021] ∧
    (generatorPipelineChart c5rows).avgWQI = [120] ∧
    (generatorPipelineChart c5rows).zeroEntries = [] ∧
    (generatorPipelineChart c5rows).annotations = [] := by
  have hacc : wqiYearlyAccum ((clean_data true true true c5rows).map prepareJsonRow) =
      ([(2021, [120])], []) := by decide
  refine ⟨by decide, ?_, ?_, ?_, ?_, ?_⟩ <;>
    simp [generatorPipelineChart, renderWQIYearlyAvg, hacc, jsSortInts, insertByStr,
      lookupVals, avgList, sortPairsByYear, List.find?]

/-- Claim C5 as amended: a spreadsheet record whose `WQI` is exactly 0
survives both row filters of `_clean_data` (its zero is a present
numeric cell) and its serialized `WQI` cell reaches the browser as
null, so it is excluded from every yearly WQI average; but it is never
annotated as `0 (n)`: on generator output the zero counters and the
annotation list of the yearly chart are always empty, because the
generator nulls the zero before embedding. -/
theorem C5_wqi_zero_amended (rows : List PRow) :
    (∀ r ∈ rows, List.find? (fun e => e.1 = "WQI") r.params = some ("WQI", some 0) →
      numericAnyPresent r = true ∧
      getCell (prepareJsonRow (zeroWQIToNone r)) "WQI" = .nullv) ∧
    (generatorPipelineChart rows).zeroEntries = [] ∧
    (generatorPipelineChart rows).annotations = [] := by
  have hcells : ∀ jr ∈ (clean_data true true true rows).map prepareJsonRow,
      getCell jr "WQI" ≠ .num 0 := by
    intro jr hjr
    rw [List.mem_map] at hjr
    obtain ⟨r1, hr1, rfl⟩ := hjr
    unfold clean_data at hr1
    rw [List.mem_map] at hr1
    obtain ⟨r0, hr0, rfl⟩ := hr1
    intro hcontra
    unfold getCell prepareJsonRow zeroWQIToNone at hcontra
    rcases hfind : List.find? (fun p => p.1 = "WQI")
        (((zeroWQIToNone r0).params).map fun p => (p.1, jsCellOfOpt p.2)) with _ | p
    · unfold zeroWQIToNone at hfind
      simp only [hfind] at hcontra
      exact JSCell.noConfusion hcontra
    · unfold zeroWQIToNone at hfind
      simp only [hfind] at hcontra
      exact zeroed_wqi_cell_ne r0.params p hfind (by simp [hcontra])
  have hsnd : (wqiYearlyAccum ((clean_data true true true rows).map prepareJsonRow)).2 = [] :=
    wqiYearly_foldl_snd _ hcells ([], [])
  refine ⟨?_, ?_, ?_⟩
  · intro r hr hfind
    constructor
    · have hmem := List.mem_of_find?_eq_some hfind
      have hany : r.params.any (fun p => p.2.isSome) = true := by
        rw [List.any_eq_true]
        exact ⟨("WQI", some 0), hmem, rfl⟩
      simp [numericAnyPresent, hany]
    · unfold getCell prepareJsonRow zeroWQIToNone
      simp only [zeroed_wqi_cell_eq r.params hfind]
  · unfold generatorPipelineChart renderWQIYearlyAvg
    simp only []
    split
    · simpa using hsnd
    · simpa using hsnd
  · unfold generatorPipelineChart renderWQIYearlyAvg
    simp only []
    split
    · rfl
    · simp only [hsnd]
      rfl

/-- Witness for `C5_wqi_zero_amended` at the concrete frame `c5rows`
and its zero-WQI record. -/
theorem C5_wqi_zero_witness :
    (numericAnyPresent c5zeroRow = true ∧
      getCell (prepareJsonRow (zeroWQIToNone c5zeroRow)) "WQI" = .nullv) ∧
    (generatorPipelineChart c5rows).zeroEntries = [] ∧
    (generatorPipelineChart c5rows).annotations = [] := by
  obtain ⟨h1, h2, h3⟩ := C5_wqi_zero_amended c5rows
  exact ⟨h1 c5zeroRow (by decide) (by decide), h2, h3⟩

/-- Claim C4, counterexample: with location filter `["Palla"]` active,
the filtered dataset is empty, yet `updateComparisonPoint` still
resolves `(ITO, 2021, June)` to the embedded record: the resolution
runs against the full `DATA` array, not against the filtered rows, so
a record excluded by the current filters can be resolved. -/
theorem C4_comparison_resolution_counterexample :
    filterData ["Palla"] [] [] c4data = [] ∧
    resolveComparisonPoint c4data "ITO" 2021 "June" = some c4row := by
  exact ⟨by decide, by decide⟩

/-- Claim C4 as amended: a comparison point is resolved by exact
`(Location, Year, Month)` match against the full embedded dataset,
independently of the active filters; the resolved record is the first
exact match in `DATA`. -/
theorem C4_comparison_resolution_amended (data : List JRow) (loc : String)
    (yr : Int) (mon : String) (r : JRow)
    (h : resolveComparisonPoint data loc yr mon = some r) :
    r ∈ data ∧ r.location = some loc ∧ r.year = some yr ∧ r.month = some mon := by
  have hmem := List.mem_of_find?_eq_some h
  have hp := List.find?_some h
  rw [decide_eq_true_eq] at hp
  exact ⟨hmem, hp.1, hp.2.1, hp.2.2⟩

/-- Witness for `C4_comparison_resolution_amended` at the concrete
dataset `c4data`. -/
theorem C4_comparison_resolution_witness :
    c4row ∈ c4data ∧ c4row.location = some "ITO" ∧
    c4row.year = some 2021 ∧ c4row.month = some "June" :=
  C4_comparison_resolution_amended c4data "ITO" 2021 "June" c4row (by decide)

/-- Helper: the min-selecting fold returns its seed or a list element,
never exceeds the seed, and is a lower bound of the list. -/
theorem foldl_minSel_spec (l : List (Int × ℚ)) (init : Int × ℚ) :
    (l.foldl (fun b ya => if ya.2 < b.2 then ya else b) init = init ∨
     l.foldl (fun b ya => if ya.2 < b.2 then ya else b) init ∈ l) ∧
    (l.foldl (fun b ya => if ya.2 < b.2 then ya else b) init).2 ≤ init.2 ∧
    ∀ ya ∈ l, (l.foldl (fun b ya => if ya.2 < b.2 then ya else b) init).2 ≤ ya.2 := by
  induction l generalizing init with
  | nil => exact ⟨Or.inl rfl, le_refl _, by simp⟩
  | cons a l ih =>
    by_cases hc : a.2 < init.2
    · rw [List.foldl_cons, if_pos hc]
      obtain ⟨hmem, hle, hall⟩ := ih a
      refine ⟨?_, le_trans hle (le_of_lt hc), ?_⟩
      · rcases hmem with h | h
        · rw [h]
          exact Or.inr (List.mem_cons_self a l)
        · exact Or.inr (List.mem_cons_of_mem a h)
      · intro ya hya
        rcases List.mem_cons.mp hya with h | hmem2
        · rw [h]
          exact hle
        · exact hall ya hmem2
    · rw [List.foldl_cons, if_neg hc]
      obtain ⟨hmem, hle, hall⟩ := ih init
      refine ⟨?_, hle, ?_⟩
      · rcases hmem with h | h
        · exact Or.inl h
        · exact Or.inr (List.mem_cons_of_mem a h)
      · intro ya hya
        rcases List.mem_cons.mp hya with h | hmem2
        · rw [h]
          exact le_trans hle (le_of_not_lt hc)
        · exact hall ya hmem2

/-- Helper: the max-selecting fold returns its seed or a list element,
never falls below the seed, and is an upper bound of the list. -/
theorem foldl_maxSel_spec (l : List (Int × ℚ)) (init : Int × ℚ) :
    (l.foldl (fun b ya => if b.2 < ya.2 then ya else b) init = init ∨
     l.foldl (fun b ya => if b.2 < ya.2 then ya else b) init ∈ l) ∧
    init.2 ≤ (l.foldl (fun b ya => if b.2 < ya.2 then ya else b) init).2 ∧
    ∀ ya ∈ l, ya.2 ≤ (l.foldl (fun b ya => if b.2 < ya.2 then ya else b) init).2 := by
  induction l generalizing init with
  | nil => exact ⟨Or.inl rfl, le_refl _, by simp⟩
  | cons a l ih =>
    by_cases hc : init.2 < a.2
    · rw [List.foldl_cons, if_pos hc]
      obtain ⟨hmem, hle, hall⟩ := ih a
      refine ⟨?_, le_trans (le_of_lt hc) hle, ?_⟩
      · rcases hmem with h | h
        · rw [h]
          exact Or.inr (List.mem_cons_self a l)
        · exact Or.inr (List.mem_cons_of_mem a h)
      · intro ya hya
        rcases List.mem_cons.mp hya with h | hmem2
        · rw [h]
          exact hle
        · exact hall ya hmem2
    · rw [List.foldl_cons, if_neg hc]
      obtain ⟨hmem, hle, hall⟩ := ih init
      refine ⟨?_, hle, ?_⟩
      · rcases hmem with h | h
        · exact Or.inl h
        · exact Or.inr (List.mem_cons_of_mem a h)
      · intro ya hya
        rcases List.mem_cons.mp hya with h | hmem2
        · rw [h]
          exact le_trans (le_of_not_lt hc) hle
        · exact hall ya hmem2

/-- Helper: the low-is-best selector is the min-selecting step. -/
theorem selBest_false_eq :
    selBest false = fun b ya => if ya.2 < b.2 then ya else b := by
  funext b ya
  simp [selBest]

/-- Helper: the high-is-best selector is the max-selecting step. -/
theorem selBest_true_eq :
    selBest true = fun b ya => if b.2 < ya.2 then ya else b := by
  funext b ya
  simp [selBest]

/-- Helper: the low-is-best worst selector is the max-selecting step. -/
theorem selWorst_false_eq :
    selWorst false = fun w ya => if w.2 < ya.2 then ya else w := by
  funext w ya
  simp [selWorst]

/-- Helper: the high-is-best worst selector is the min-selecting step. -/
theorem selWorst_true_eq :
    selWorst true = fun w ya => if ya.2 < w.2 then ya else w := by
  funext w ya
  simp [selWorst]

/-- Helper: sign of the relative change, negative case. -/
theorem relChange_neg_iff (l f : ℚ) (hf : 0 < f) :
    ((l - f) / f) * 100 < 0 ↔ l < f := by
  rw [div_mul_eq_mul_div, div_neg_iff]
  constructor
  · rintro (⟨_, hc⟩ | ⟨hc, _⟩)
    · linarith
    · nlinarith
  · intro h
    exact Or.inr ⟨by nlinarith, hf⟩

/-- Helper: sign of the relative change, positive case. -/
theorem relChange_pos_iff (l f : ℚ) (hf : 0 < f) :
    0 < ((l - f) / f) * 100 ↔ f < l := by
  rw [div_mul_eq_mul_div, div_pos_iff]
  constructor
  · rintro (⟨hc, _⟩ | ⟨_, hc⟩)
    · nlinarith
    · linarith
  · intro h
    exact Or.inl ⟨by nlinarith, hf⟩

/-- Helper: the mean of a one-element list is its element. -/
theorem avgList_single (q : ℚ) : avgList [q] = q := by
  simp [avgList]

/-- Helper: evaluation of `generateYearlyPerformanceAnalysis` on the
concrete frame `c3rows` with parameter `WQI`. -/
theorem c3perf_eq :
    generateYearlyPerformanceAnalysis c3rows "WQI" = some c3perf := by
  have e1 : ypAccum c3rows "WQI" = [(2020, [100]), (2021, [150])] := by decide
  have e2 : jsSortInts (List.map (fun e => e.1)
      [((2020 : Int), [(100 : ℚ)]), (2021, [150])]) = [2020, 2021] := by decide
  have e3 : lookupVals [((2020 : Int), [(100 : ℚ)]), (2021, [150])] 2020 = [100] := by decide
  have e4 : lookupVals [((2020 : Int), [(100 : ℚ)]), (2021, [150])] 2021 = [150] := by decide
  have e5 : hiIsBest "WQI" = false := by decide
  unfold generateYearlyPerformanceAnalysis c3perf
  dsimp only
  rw [e1, e2]
  dsimp only [List.headD, List.getLastD, List.getLast, List.map]
  rw [e3, e4, avgList_single, avgList_single]
  norm_num [selBest, selWorst, e5, isImprovingChange]

/-- Claim C3, counterexample: for parameter `WQI` the yearly average
increased from 100 (2020) to 150 (2021), yet
`generateYearlyPerformanceAnalysis` classifies the change as a
(significant) deterioration, not an improvement, and reports the
lower-mean year 2020 as best — the code treats a decreasing `WQI` as
improving, while the claim says an increase counts as improvement for
`WQI`. -/
theorem C3_yearly_perf_counterexample :
    generateYearlyPerformanceAnalysis c3rows "WQI" = some c3perf ∧
    c3perf.firstAvg < c3perf.lastAvg ∧
    c3perf.stable = false ∧ c3perf.improving = false ∧
    c3perf.significant = true ∧
    c3perf.bestYear = 2020 ∧ c3perf.bestAvg = 100 ∧
    c3perf.worstYear = 2021 ∧ c3perf.worstAvg = 150 := by
  refine ⟨c3perf_eq, by norm_num [c3perf], rfl, rfl, rfl, rfl, rfl, rfl, rfl⟩

/-- Claim C3 as amended: with a single selected parameter, at least two
distinct years and a positive first-year mean, the first-to-last
relative change is stable below 5 percent and significant above 20
percent (moderate in between), and the change counts as improvement
exactly when the yearly mean increased for `DO_mg_L`-named parameters
and exactly when it decreased for `WQI` and for every other parameter;
the best year carries the lowest mean (highest for `DO_mg_L`-named
parameters) among the per-year means and the worst year the opposite
extreme. -/
theorem C3_yearly_perf_amended (rows : List JRow) (param : String) (r : YearlyPerf)
    (h : generateYearlyPerformanceAnalysis rows param = some r)
    (hfa : 0 < r.firstAvg) :
    r.overallChange = ((r.lastAvg - r.firstAvg) / r.firstAvg) * 100 ∧
    (r.stable = true ↔ |r.overallChange| < 5) ∧
    (r.significant = true ↔ 20 < |r.overallChange|) ∧
    (param = "WQI" → (r.improving = true ↔ r.lastAvg < r.firstAvg)) ∧
    (param ≠ "WQI" → paramIsDO param = true →
      (r.improving = true ↔ r.firstAvg < r.lastAvg)) ∧
    (param ≠ "WQI" → paramIsDO param = false →
      (r.improving = true ↔ r.lastAvg < r.firstAvg)) ∧
    ((r.bestYear, r.bestAvg) ∈ r.yearAvgs ∧ (r.worstYear, r.worstAvg) ∈ r.yearAvgs) ∧
    (hiIsBest param = false →
      ∀ ya ∈ r.yearAvgs, r.bestAvg ≤ ya.2 ∧ ya.2 ≤ r.worstAvg) ∧
    (hiIsBest param = true →
      ∀ ya ∈ r.yearAvgs, ya.2 ≤ r.bestAvg ∧ r.worstAvg ≤ ya.2) := by
  unfold generateYearlyPerformanceAnalysis at h
  dsimp only at h
  split at h
  · exact absurd h (by simp)
  next hlen =>
    rw [Option.some.injEq] at h
    subst h
    have hyne : jsSortInts (List.map (fun e => e.1) (ypAccum rows param)) ≠ [] := by
      intro hemp
      rw [hemp] at hlen
      simp at hlen
    have hfirstmem : (jsSortInts (List.map (fun e => e.1) (ypAccum rows param))).headD 0 ∈
        jsSortInts (List.map (fun e => e.1) (ypAccum rows param)) := by
      cases hcase : jsSortInts (List.map (fun e => e.1) (ypAccum rows param)) with
      | nil => exact absurd hcase hyne
      | cons a t => simp
    have hinitmem :
        ((jsSortInts (List.map (fun e => e.1) (ypAccum rows param))).headD 0,
          avgList (lookupVals (ypAccum rows param)
            ((jsSortInts (List.map (fun e => e.1) (ypAccum rows param))).headD 0))) ∈
        List.map (fun y => (y, avgList (lookupVals (ypAccum rows param) y)))
          (jsSortInts (List.map (fun e => e.1) (ypAccum rows param))) :=
      List.mem_map_of_mem _ hfirstmem
    refine ⟨rfl, by simp, by simp, ?_, ?_, ?_, ?_, ?_, ?_⟩
    · intro hP
      subst hP
      simp only [isImprovingChange, eq_self_iff_true, if_true, decide_eq_true_eq]
      exact relChange_neg_iff _ _ hfa
    · intro hP hDO
      simp only [isImprovingChange, if_neg hP, hDO, if_true, decide_eq_true_eq]
      exact relChange_pos_iff _ _ hfa
    · intro hP hDO
      simp only [isImprovingChange, if_neg hP, hDO, Bool.false_eq_true, if_false,
        decide_eq_true_eq]
      exact relChange_neg_iff _ _ hfa
    · cases hhi : hiIsBest param with
      | false =>
        simp only [hhi, selBest_false_eq, selWorst_false_eq]
        obtain ⟨hbmem, -, -⟩ := foldl_minSel_spec
          (List.map (fun y => (y, avgList (lookupVals (ypAccum rows param) y)))
            (jsSortInts (List.map (fun e => e.1) (ypAccum rows param))))
          ((jsSortInts (List.map (fun e => e.1) (ypAccum rows param))).headD 0,
            avgList (lookupVals (ypAccum rows param)
              ((jsSortInts (List.map (fun e => e.1) (ypAccum rows param))).headD 0)))
        obtain ⟨hwmem, -, -⟩ := foldl_maxSel_spec
          (List.map (fun y => (y, avgList (lookupVals (ypAccum rows param) y)))
            (jsSortInts (List.map (fun e => e.1) (ypAccum rows param))))
          ((jsSortInts (List.map (fun e => e.1) (ypAccum rows param))).headD 0,
            avgList (lookupVals (ypAccum rows param)
              ((jsSortInts (List.map (fun e => e.1) (ypAccum rows param))).headD 0)))
        constructor
        · rcases hbmem with heq | hm
          · rw [heq]
            exact hinitmem
          · exact hm
        · rcases hwmem with heq | hm
          · rw [heq]
            exact hinitmem
          · exact hm
      | true =>
        simp only [hhi, selBest_true_eq, selWorst_true_eq]
        obtain ⟨hbmem, -, -⟩ := foldl_maxSel_spec
          (List.map (fun y => (y, avgList (lookupVals (ypAccum rows param) y)))
            (jsSortInts (List.map (fun e => e.1) (ypAccum rows param))))
          ((jsSortInts (List.map (fun e => e.1) (ypAccum rows param))).headD 0,
            avgList (lookupVals (ypAccum rows param)
              ((jsSortInts (List.map (fun e => e.1) (ypAccum rows param))).headD 0)))
        obtain ⟨hwmem, -, -⟩ := foldl_minSel_spec
          (List.map (fun y => (y, avgList (lookupVals (ypAccum rows param) y)))
            (jsSortInts (List.map (fun e => e.1) (ypAccum rows param))))
          ((jsSortInts (List.map (fun e => e.1) (ypAccum rows param))).headD 0,
            avgList (lookupVals (ypAccum rows param)
              ((jsSortInts (List.map (fun e => e.1) (ypAccum rows param))).headD 0)))
        constructor
        · rcases hbmem with heq | hm
          · rw [heq]
            exact hinitmem
          · exact hm
        · rcases hwmem with heq | hm
          · rw [heq]
            exact hinitmem
          · exact hm
    · intro hhi ya hya
      simp only [hhi, selBest_false_eq, selWorst_false_eq]
      obtain ⟨-, -, hball⟩ := foldl_minSel_spec
        (List.map (fun y => (y, avgList (lookupVals (ypAccum rows param) y)))
          (jsSortInts (List.map (fun e => e.1) (ypAccum rows param))))
        ((jsSortInts (List.map (fun e => e.1) (ypAccum rows param))).headD 0,
          avgList (lookupVals (ypAccum rows param)
            ((jsSortInts (List.map (fun e => e.1) (ypAccum rows param))).headD 0)))
      obtain ⟨-, -, hwall⟩ := foldl_maxSel_spec
        (List.map (fun y => (y, avgList (lookupVals (ypAccum rows param) y)))
          (jsSortInts (List.map (fun e => e.1) (ypAccum rows param))))
        ((jsSortInts (List.map (fun e => e.1) (ypAccum rows param))).headD 0,
          avgList (lookupVals (ypAccum rows param)
            ((jsSortInts (List.map (fun e => e.1) (ypAccum rows param))).headD 0)))
      exact ⟨hball ya (by simpa using hya), hwall ya (by simpa using hya)⟩
    · intro hhi ya hya
      simp only [hhi, selBest_true_eq, selWorst_true_eq]
      obtain ⟨-, -, hball⟩ := foldl_maxSel_spec
        (List.map (fun y => (y, avgList (lookupVals (ypAccum rows param) y)))
          (jsSortInts (List.map (fun e => e.1) (ypAccum rows param))))
        ((jsSortInts (List.map (fun e => e.1) (ypAccum rows param))).headD 0,
          avgList (lookupVals (ypAccum rows param)
            ((jsSortInts (List.map (fun e => e.1) (ypAccum rows param))).headD 0)))
      obtain ⟨-, -, hwall⟩ := foldl_minSel_spec
        (List.map (fun y => (y, avgList (lookupVals (ypAccum rows param) y)))
          (jsSortInts (List.map (fun e => e.1) (ypAccum rows param))))
        ((jsSortInts (List.map (fun e => e.1) (ypAccum rows param))).headD 0,
          avgList (lookupVals (ypAccum rows param)
            ((jsSortInts (List.map (fun e => e.1) (ypAccum rows param))).headD 0)))
      exact ⟨hball ya (by simpa using hya), hwall ya (by simpa using hya)⟩

/-- Witness for `C3_yearly_perf_amended` at the concrete frame
`c3rows` with parameter `WQI`. -/
theorem C3_yearly_perf_witness :
    (c3perf.stable = true ↔ |c3perf.overallChange| < 5) ∧
    (c3perf.improving = true ↔ c3perf.lastAvg < c3perf.firstAvg) := by
  have h := C3_yearly_perf_amended c3rows "WQI" c3perf c3perf_eq (by norm_num [c3perf])
  exact ⟨h.2.1, h.2.2.2.1 rfl⟩

/-- Claim C8, counterexample: `c8rows` has a single selected parameter
and spans three distinct months, yet the insights list consists of the
coverage callout and the compliance callout only — no seasonal-pattern
statement (best month, worst month, spread) appears, because
`generateInsights` computes no month grouping at all. -/
theorem C8_seasonal_insight_counterexample :
    generateInsights c8rows ["pH"] =
      [.coverage (some 1) 1 3, .complianceRate (200 / 3)] ∧
    ((generateInsights c8rows ["pH"]).all fun i => !(isSeasonalIns i)) = true ∧
    (dedupKeep (c8rows.filterMap fun r => r.month)).length = 3 := by
  have hvals : c8rows.filterMap
      (fun r => getAnalysisValue (getCell r "pH") "pH") = [7, 8, 9] := by decide
  have hcomp : List.filter (fun v => isCompliantVal "pH" v) [(7 : ℚ), 8, 9] = [7, 8] := by
    norm_num [isCompliantVal, List.filter]
  have hci : complianceInsights c8rows "pH" = [.complianceRate (200 / 3)] := by
    unfold complianceInsights
    dsimp only
    rw [hvals, hcomp]
    norm_num
  have hcov : coverageInsight c8rows = .coverage (some 1) 1 3 := by decide
  have hgen : generateInsights c8rows ["pH"] =
      [.coverage (some 1) 1 3, .complianceRate (200 / 3)] := by
    unfold generateInsights
    rw [if_neg (by decide), if_neg (by decide), if_pos (by decide), hcov,
      show complianceInsights c8rows (["pH"].headD "") =
        [Insight.complianceRate (200 / 3)] from hci]
    rfl
  refine ⟨hgen, ?_, by decide⟩
  rw [hgen]
  rfl

/-- Claim C8 as amended: the Insights Engine of this variant emits the
selection prompt, the coverage callout and, for a single selected
parameter, the yearly-performance, temporal-trend and compliance-rate
callouts; it never emits a seasonal-pattern statement, regardless of
how many distinct months the filtered records span.  The coverage
callout is always present for a non-empty view. -/
theorem C8_insights_amended (rows : List JRow) (params : List String) :
    (∀ i ∈ generateInsights rows params, isSeasonalIns i = false) ∧
    (rows.isEmpty = false → params.isEmpty = false →
      coverageInsight rows ∈ generateInsights rows params) := by
  constructor
  · intro i hi
    unfold generateInsights at hi
    split at hi
    · simp at hi
      subst hi
      rfl
    · have hi2 := List.take_subset _ _ hi
      rcases List.mem_cons.mp hi2 with rfl | hm
      · rfl
      · rcases List.mem_append.mp hm with hm1 | hm2
        · split at hm1
          · unfold yearlyInsights at hm1
            rcases List.mem_append.mp hm1 with h1 | h2
            · cases hY : generateYearlyPerformanceAnalysis rows (params.headD "") with
              | none => rw [hY] at h1; simp at h1
              | some p =>
                rw [hY] at h1
                simp at h1
                subst h1
                rfl
            · cases hT : generateTemporalTrendAnalysis rows (params.headD "") with
              | none => rw [hT] at h2; simp at h2
              | some t =>
                rw [hT] at h2
                simp at h2
                subst h2
                rfl
          · simp at hm1
        · split at hm2
          · unfold complianceInsights at hm2
            dsimp only at hm2
            split at hm2
            · simp at hm2
            · simp at hm2
              subst hm2
              rfl
          · simp at hm2
  · intro h1 h2
    unfold generateInsights
    rw [if_neg (by simp [h1, h2])]
    rw [List.take_succ_cons]
    exact List.mem_cons_self _ _

/-- Witness for `C8_insights_amended` at the concrete frame `c8rows`
with the single parameter `pH`. -/
theorem C8_insights_witness :
    ((generateInsights c8rows ["pH"]).all fun i => !(isSeasonalIns i)) = true ∧
    coverageInsight c8rows ∈ generateInsights c8rows ["pH"] := by
  have h := C8_insights_amended c8rows ["pH"]
  refine ⟨?_, h.2 (by decide) (by decide)⟩
  rw [List.all_eq_true]
  intro i hi
  simp [h.1 i hi]

/-- Helper: multiplying the positive finite factor `1/(k2 - k1)` by a
NaN or negative-infinite logarithm keeps `tc > 0` false. -/
theorem tc_gt_false (x : JSNum) (hx : x = .nan ∨ x = .ninf) :
    (((JSNum.fin 1).div ((JSNum.fin 0.4).sub (JSNum.fin 0.1))).mul x).gt (.fin 0)
      = false := by
  have hdiv : (JSNum.fin 1).div ((JSNum.fin 0.4).sub (JSNum.fin 0.1)) =
      .fin (1 / (0.4 + -0.1)) := by
    simp only [JSNum.sub, JSNum.neg, JSNum.add, JSNum.div]
    norm_num
  rcases hx with h | h <;> rw [h, hdiv]
  · rfl
  · simp only [JSNum.mul]
    rw [if_neg (by norm_num), if_pos (by norm_num)]
    rfl

/-- Helper: a value that compares strictly between 0 and 10 under the
JavaScript comparisons is a finite number strictly between 0 and 10. -/
theorem crit_window (tc : JSNum) (h1 : tc.gt (.fin 0) = true)
    (h2 : tc.lt (.fin 10) = true) : ∃ q, tc = .fin q ∧ 0 < q ∧ q < 10 := by
  cases tc with
  | nan => simp [JSNum.gt] at h1
  | inf => simp [JSNum.lt] at h2
  | ninf => simp [JSNum.gt] at h1
  | fin q =>
    simp only [JSNum.gt, JSNum.lt, decide_eq_true_eq] at h1 h2
    exact ⟨q, rfl, h1, h2⟩

/-- Helper: the log test double satisfies its contract. -/
theorem jsLogModel_spec : LogSpec jsLogModel := by
  refine ⟨rfl, rfl, by norm_num [jsLogModel], ?_⟩
  intro q hq
  simp [jsLogModel, hq]

/-- Helper: the critical-time logarithm argument at `BOD1 = 5`,
`DO1 = 4` is exactly `4 * (1 - 3) = -8`. -/
theorem spLogArg_c9 : spLogArg (.fin 5) (.fin 4) = .fin (-8) := by
  unfold spLogArg
  dsimp only
  simp only [JSNum.sub, JSNum.neg, JSNum.add, JSNum.mul, JSNum.div]
  norm_num

/-- Claim C9: `calculateStreeterPhelps` is a total function of its
inputs (no exception path exists); whenever `k1*BOD1` makes the
critical-time logarithm argument non-positive (or non-finite, from a
zero denominator), the result simply carries no critical point — both
`criticalTime` and `criticalDeficit` are `null` and the rendered
results omit the critical-sag block; and the critical sag point is
rendered only when the critical time is a finite value strictly
between 0 and 10 days. -/
theorem C9_streeter_phelps_safety (L E : JSNum → JSNum) (hL : LogSpec L)
    (BOD1 DO1 BOD2 DO2 : JSNum) :
    (jsNonPos (spLogArg BOD1 DO1) →
      (calculateStreeterPhelps L E BOD1 DO1 BOD2 DO2).criticalTime = none ∧
      (calculateStreeterPhelps L E BOD1 DO1 BOD2 DO2).criticalDeficit = none ∧
      showCriticalSag (calculateStreeterPhelps L E BOD1 DO1 BOD2 DO2) = false) ∧
    (showCriticalSag (calculateStreeterPhelps L E BOD1 DO1 BOD2 DO2) = true →
      ∃ q : ℚ,
        (calculateStreeterPhelps L E BOD1 DO1 BOD2 DO2).criticalTime = some (.fin q) ∧
        0 < q ∧ q < 10) := by
  constructor
  · intro hnp
    have harg : L (spLogArg BOD1 DO1) = .nan ∨ L (spLogArg BOD1 DO1) = .ninf := by
      rcases hnp with h | h | ⟨q, hq, h⟩
      · rw [h, hL.1]
        exact Or.inl rfl
      · rw [h, hL.2.1]
        exact Or.inl rfl
      · rcases lt_or_eq_of_le hq with hlt | heq
        · rw [h, hL.2.2.2 q hlt]
          exact Or.inl rfl
        · rw [heq] at h
          rw [h, hL.2.2.1]
          exact Or.inr rfl
    have hgt := tc_gt_false (L (spLogArg BOD1 DO1)) harg
    unfold calculateStreeterPhelps
    dsimp only
    rw [if_neg (by rw [hgt]; exact Bool.false_ne_true),
      if_neg (by rw [hgt]; exact Bool.false_ne_true)]
    exact ⟨rfl, rfl, by simp [showCriticalSag]⟩
  · intro hshow
    unfold showCriticalSag at hshow
    rcases hct : (calculateStreeterPhelps L E BOD1 DO1 BOD2 DO2).criticalTime with _ | tc
    · rw [hct] at hshow
      simp at hshow
    · rw [hct] at hshow
      simp only [Bool.and_eq_true] at hshow
      obtain ⟨q, hq, h0, h10⟩ := crit_window tc hshow.1.2 hshow.2
      exact ⟨q, congrArg some hq, h0, h10⟩

/-- Witness for `C9_streeter_phelps_safety`: the degenerate pair
`BOD1 = 5, DO1 = 4` makes the logarithm argument `-8`; the comparison
result carries no critical point and the sag block is not rendered. -/
theorem C9_streeter_phelps_witness :
    (calculateStreeterPhelps jsLogModel jsExpModel
      (.fin 5) (.fin 4) (.fin 6) (.fin 3)).criticalTime = none ∧
    showCriticalSag (calculateStreeterPhelps jsLogModel jsExpModel
      (.fin 5) (.fin 4) (.fin 6) (.fin 3)) = false := by
  have h := C9_streeter_phelps_safety jsLogModel jsExpModel jsLogModel_spec
    (.fin 5) (.fin 4) (.fin 6) (.fin 3)
  have hnp : jsNonPos (spLogArg (.fin 5) (.fin 4)) :=
    Or.inr (Or.inr ⟨-8, by norm_num, spLogArg_c9⟩)
  exact ⟨(h.1 hnp).1, (h.1 hnp).2.2⟩
